import Mathlib

set_option maxRecDepth 65536

/-!
Formal model of `script/hassfest/quality_scale.py` from home-assistant-core:
the integration quality-scale validator.  The Python module is embedded
shallowly: the rule catalog, the derived tier index, the declaration-file
schema, the presence policy and the tier-completion checker become Lean
definitions; file-system state, the YAML parse result and the bodies of the
rule-specific structural validators (external collaborators) are passed in
as explicit parameters.  Python exceptions that can escape the function are
modelled with `Except`.
-/

/-- The ordered quality-scale tiers.  Modelled from the spec: the enum
`ScaledQualityScaleTiers` lives in `script/hassfest/model.py`, which is not
part of the embedded source; the spec describes it as the ordered enum
BRONZE < SILVER < GOLD < PLATINUM. -/
inductive Tier where
  | bronze
  | silver
  | gold
  | platinum
deriving DecidableEq, Repr

/-- Numeric value of a tier, fixing the total order of the enum. -/
def Tier.val : Tier → Nat
  | .bronze => 1
  | .silver => 2
  | .gold => 3
  | .platinum => 4

instance : LT Tier := ⟨fun a b => a.val < b.val⟩

instance : LE Tier := ⟨fun a b => a.val ≤ b.val⟩

instance (a b : Tier) : Decidable (a < b) :=
  inferInstanceAs (Decidable (a.val < b.val))

instance (a b : Tier) : Decidable (a ≤ b) :=
  inferInstanceAs (Decidable (a.val ≤ b.val))

/-- Iteration order of the `ScaledQualityScaleTiers` enum (ascending). -/
def allTiers : List Tier := [.bronze, .silver, .gold, .platinum]

/-- Python `QUALITY_SCALE_TIERS = {value.name.lower(): value for value in ScaledQualityScaleTiers}`,
as the lookup function the code uses it for (`dict.get`). -/
def QUALITY_SCALE_TIERS : String → Option Tier := fun s =>
  if s = "bronze" then some .bronze
  else if s = "silver" then some .silver
  else if s = "gold" then some .gold
  else if s = "platinum" then some .platinum
  else none

/-- A catalog entry: `Rule(name, tier, validator=None)`.  Validator bodies are
external collaborators; the model records only whether one is bound. -/
structure Rule where
  name : String
  tier : Tier
  hasValidator : Bool
deriving DecidableEq, Repr

/-- The static rule catalog `ALL_RULES`. -/
def ALL_RULES : List Rule := [
  Rule.mk "action-setup" Tier.bronze false,
  Rule.mk "appropriate-polling" Tier.bronze false,
  Rule.mk "brands" Tier.bronze false,
  Rule.mk "common-modules" Tier.bronze false,
  Rule.mk "config-flow" Tier.bronze true,
  Rule.mk "config-flow-test-coverage" Tier.bronze false,
  Rule.mk "dependency-transparency" Tier.bronze false,
  Rule.mk "docs-actions" Tier.bronze false,
  Rule.mk "docs-high-level-description" Tier.bronze false,
  Rule.mk "docs-installation-instructions" Tier.bronze false,
  Rule.mk "docs-removal-instructions" Tier.bronze false,
  Rule.mk "entity-event-setup" Tier.bronze false,
  Rule.mk "entity-unique-id" Tier.bronze false,
  Rule.mk "has-entity-name" Tier.bronze false,
  Rule.mk "runtime-data" Tier.bronze true,
  Rule.mk "test-before-configure" Tier.bronze false,
  Rule.mk "test-before-setup" Tier.bronze false,
  Rule.mk "unique-config-entry" Tier.bronze true,
  Rule.mk "action-exceptions" Tier.silver false,
  Rule.mk "config-entry-unloading" Tier.silver true,
  Rule.mk "docs-configuration-parameters" Tier.silver false,
  Rule.mk "docs-installation-parameters" Tier.silver false,
  Rule.mk "entity-unavailable" Tier.silver false,
  Rule.mk "integration-owner" Tier.silver false,
  Rule.mk "log-when-unavailable" Tier.silver false,
  Rule.mk "parallel-updates" Tier.silver true,
  Rule.mk "reauthentication-flow" Tier.silver true,
  Rule.mk "test-coverage" Tier.silver false,
  Rule.mk "devices" Tier.gold false,
  Rule.mk "diagnostics" Tier.gold true,
  Rule.mk "discovery" Tier.gold true,
  Rule.mk "discovery-update-info" Tier.gold false,
  Rule.mk "docs-data-update" Tier.gold false,
  Rule.mk "docs-examples" Tier.gold false,
  Rule.mk "docs-known-limitations" Tier.gold false,
  Rule.mk "docs-supported-devices" Tier.gold false,
  Rule.mk "docs-supported-functions" Tier.gold false,
  Rule.mk "docs-troubleshooting" Tier.gold false,
  Rule.mk "docs-use-cases" Tier.gold false,
  Rule.mk "dynamic-devices" Tier.gold false,
  Rule.mk "entity-category" Tier.gold false,
  Rule.mk "entity-device-class" Tier.gold false,
  Rule.mk "entity-disabled-by-default" Tier.gold false,
  Rule.mk "entity-translations" Tier.gold false,
  Rule.mk "exception-translations" Tier.gold false,
  Rule.mk "icon-translations" Tier.gold false,
  Rule.mk "reconfiguration-flow" Tier.gold true,
  Rule.mk "repair-issues" Tier.gold false,
  Rule.mk "stale-devices" Tier.gold false,
  Rule.mk "async-dependency" Tier.platinum false,
  Rule.mk "inject-websession" Tier.platinum false,
  Rule.mk "strict-typing" Tier.platinum true
]

/-- Python `SCALE_RULES[tier]`: names of the catalog rules belonging to `tier`. -/
def SCALE_RULES (t : Tier) : List String :=
  (ALL_RULES.filter (fun r => r.tier == t)).map Rule.name

/-- All rule names of the catalog, in catalog order. -/
def RULE_NAMES : List String := ALL_RULES.map Rule.name

/-- Domain of the `VALIDATORS` mapping: names of rules that bind a structural
validator (`{rule.name: rule.validator for rule in ALL_RULES if rule.validator}`). -/
def VALIDATOR_NAMES : List String :=
  (ALL_RULES.filter Rule.hasValidator).map Rule.name

/-- Python `RULE_URL.format(rule_name=rule_name)`: the documentation-link message. -/
def RULE_URL (rule_name : String) : String :=
  "Please check the documentation at " ++
  "https://developers.home-assistant.io/docs/core/" ++
  "integration-quality-scale/rules/" ++ rule_name ++ "/"

/-- The grandfathered list `INTEGRATIONS_WITHOUT_QUALITY_SCALE_FILE`: legacy
domains exempt from the Bronze-minimum mandate (configuration data, copied
verbatim from the source). -/
def INTEGRATIONS_WITHOUT_QUALITY_SCALE_FILE : List String := [
  "abode", "accuweather", "acer_projector", "acmeda", "actiontec", "adax", "adguard", "ads",
  "advantage_air", "aemet", "aftership", "agent_dvr", "airly", "airnow", "airq", "airthings",
  "airthings_ble", "airtouch4", "airtouch5", "airvisual", "airvisual_pro", "airzone",
  "airzone_cloud", "aladdin_connect", "alarmdecoder", "alert", "alexa", "alpha_vantage",
  "amazon_polly", "amberelectric", "ambient_network", "ambient_station", "amcrest", "ampio",
  "analytics", "analytics_insights", "android_ip_webcam", "androidtv", "androidtv_remote",
  "anel_pwrctrl", "anova", "anthemav", "anthropic", "aosmith", "apache_kafka", "apcupsd",
  "apple_tv", "apprise", "aprilaire", "aprs", "apsystems", "aquacell", "aqualogic", "aquostv",
  "aranet", "arcam_fmj", "arest", "arris_tg2492lg", "aruba", "arve", "arwn",
  "aseko_pool_live", "assist_pipeline", "asterisk_mbox", "asuswrt", "atag", "aten_pe",
  "atome", "august", "aurora", "aurora_abb_powerone", "aussie_broadband", "avea", "avion",
  "awair", "aws", "axis", "azure_data_explorer", "azure_devops", "azure_event_hub",
  "azure_service_bus", "backup", "baf", "baidu", "balboa", "bang_olufsen", "bayesian", "bbox",
  "beewi_smartclim", "bitcoin", "bizkaibus", "blackbird", "blebox", "blink",
  "blinksticklight", "blockchain", "blue_current", "bluemaestro", "bluesound", "bluetooth",
  "bluetooth_adapters", "bluetooth_le_tracker", "bluetooth_tracker", "bmw_connected_drive",
  "bond", "bosch_shc", "braviatv", "broadlink", "brother", "brottsplatskartan", "browser",
  "brunt", "bryant_evolution", "bsblan", "bt_home_hub_5", "bt_smarthub", "bthome",
  "buienradar", "caldav", "canary", "cast", "ccm15", "cert_expiry", "chacon_dio", "channels",
  "circuit", "cisco_ios", "cisco_mobility_express", "cisco_webex_teams", "citybikes",
  "clementine", "clickatell", "clicksend", "clicksend_tts", "climacell", "cloud",
  "cloudflare", "cmus", "co2signal", "coinbase", "color_extractor", "comed_hourly_pricing",
  "comelit", "comfoconnect", "command_line", "compensation", "concord232", "control4",
  "coolmaster", "cppm_tracker", "cpuspeed", "crownstone", "cups", "currencylayer", "daikin",
  "danfoss_air", "datadog", "ddwrt", "deako", "debugpy", "deconz", "decora", "decora_wifi",
  "delijn", "deluge", "demo", "denon", "denonavr", "derivative", "devialet",
  "device_sun_light_trigger", "devolo_home_control", "devolo_home_network", "dexcom", "dhcp",
  "dialogflow", "digital_ocean", "directv", "discogs", "discord", "dlib_face_detect",
  "dlib_face_identify", "dlink", "dlna_dmr", "dlna_dms", "dnsip", "dominos", "doods",
  "doorbird", "dormakaba_dkey", "dovado", "downloader", "dremel_3d_printer", "drop_connect",
  "dsmr", "dsmr_reader", "dublin_bus_transport", "duckdns", "duke_energy", "dunehd",
  "duotecno", "dwd_weather_warnings", "dweet", "dynalite", "eafm", "easyenergy", "ebox",
  "ebusd", "ecoal_boiler", "ecobee", "ecoforest", "econet", "ecovacs", "ecowitt",
  "eddystone_temperature", "edimax", "edl21", "efergy", "egardia", "eight_sleep",
  "electrasmart", "electric_kiwi", "elevenlabs", "eliqonline", "elkm1", "elmax", "elv",
  "elvia", "emby", "emoncms", "emoncms_history", "emonitor", "emulated_hue", "emulated_kasa",
  "emulated_roku", "energenie_power_sockets", "energy", "energyzero", "enigma2", "enocean",
  "enphase_envoy", "entur_public_transport", "environment_canada", "envisalink", "ephember",
  "epic_games_store", "epion", "epson", "eq3btsmart", "escea", "esphome", "etherscan", "eufy",
  "eufylife_ble", "everlights", "evil_genius_labs", "evohome", "ezviz", "faa_delays",
  "facebook", "fail2ban", "familyhub", "fastdotcom", "feedreader", "ffmpeg_motion",
  "ffmpeg_noise", "fibaro", "fido", "file", "filesize", "filter", "fints", "fireservicerota",
  "firmata", "fivem", "fixer", "fjaraskupan", "fleetgo", "flexit", "flexit_bacnet", "flic",
  "flick_electric", "flipr", "flo", "flock", "flume", "flux", "flux_led", "folder",
  "folder_watcher", "foobot", "forecast_solar", "forked_daapd", "fortios", "foscam",
  "foursquare", "free_mobile", "freebox", "freedns", "freedompro", "fritzbox",
  "fritzbox_callmonitor", "fronius", "frontier_silicon", "fujitsu_fglair", "fujitsu_hvac",
  "futurenow", "garadget", "garages_amsterdam", "gardena_bluetooth", "gc100", "gdacs",
  "generic", "generic_hygrostat", "generic_thermostat", "geniushub", "geo_json_events",
  "geo_rss_events", "geocaching", "geofency", "geonetnz_quakes", "geonetnz_volcano", "gios",
  "github", "gitlab_ci", "gitter", "glances", "go2rtc", "goalzero", "gogogate2", "goodwe",
  "google", "google_assistant", "google_assistant_sdk", "google_cloud", "google_domains",
  "google_generative_ai_conversation", "google_mail", "google_maps", "google_pubsub",
  "google_sheets", "google_tasks", "google_translate", "google_travel_time", "google_wifi",
  "govee_ble", "govee_light_local", "gpsd", "gpslogger", "graphite", "gree",
  "greeneye_monitor", "greenwave", "group", "growatt_server", "gstreamer", "gtfs", "guardian",
  "habitica", "harman_kardon_avr", "harmony", "hassio", "haveibeenpwned", "hddtemp",
  "hdmi_cec", "heatmiser", "heos", "here_travel_time", "hikvision", "hikvisioncam",
  "hisense_aehw4a1", "history_stats", "hitron_coda", "hive", "hko", "hlk_sw16", "holiday",
  "home_connect", "homekit", "homekit_controller", "homematic", "homematicip_cloud",
  "homeworks", "honeywell", "horizon", "hp_ilo", "html5", "http", "huawei_lte", "hue",
  "huisbaasje", "hunterdouglas_powerview", "husqvarna_automower_ble", "huum",
  "hvv_departures", "hydrawise", "hyperion", "ialarm", "iammeter", "iaqualink", "ibeacon",
  "icloud", "idasen_desk", "idteck_prox", "ifttt", "iglo", "ign_sismologia", "ihc",
  "imgw_pib", "improv_ble", "incomfort", "influxdb", "inkbird", "insteon", "integration",
  "intellifire", "intesishome", "ios", "iotawatt", "iotty", "iperf3", "ipma", "ipp", "iqvia",
  "irish_rail_transport", "isal", "iskra", "islamic_prayer_times", "israel_rail", "iss",
  "isy994", "itach", "itunes", "izone", "jellyfin", "jewish_calendar", "joaoapps_join",
  "juicenet", "justnimbus", "jvc_projector", "kaiterra", "kaleidescape", "kankun", "keba",
  "keenetic_ndms2", "kef", "kegtron", "keyboard", "keyboard_remote", "keymitt_ble", "kira",
  "kitchen_sink", "kiwi", "kmtronic", "knocki", "knx", "kodi", "konnected",
  "kostal_plenticore", "kraken", "kulersky", "kwb", "lacrosse", "lacrosse_view", "lametric",
  "landisgyr_heat_meter", "lannouncer", "lastfm", "launch_library", "laundrify", "lcn",
  "ld2410_ble", "leaone", "led_ble", "lektrico", "lg_netcast", "lg_soundbar", "lg_thinq",
  "lidarr", "life360", "lifx", "lifx_cloud", "lightwave", "limitlessled",
  "linear_garage_door", "linkplay", "linksys_smart", "linode", "linux_battery", "lirc",
  "litejet", "litterrobot", "livisi", "llamalab_automate", "local_calendar", "local_file",
  "local_ip", "local_todo", "location", "locative", "logentries", "logi_circle", "london_air",
  "london_underground", "lookin", "loqed", "luci", "luftdaten", "lupusec", "lutron",
  "lutron_caseta", "lw12wifi", "lyric", "madvr", "mailbox", "mailgun", "manual",
  "manual_mqtt", "map", "marytts", "matrix", "matter", "maxcube", "mazda", "mealie", "meater",
  "medcom_ble", "media_extractor", "mediaroom", "melcloud", "melissa", "melnor", "meraki",
  "message_bird", "met", "met_eireann", "meteo_france", "meteoalarm", "meteoclimatic",
  "metoffice", "mfi", "microbees", "microsoft", "microsoft_face", "microsoft_face_detect",
  "microsoft_face_identify", "mikrotik", "mill", "min_max", "minecraft_server", "minio",
  "mjpeg", "moat", "mobile_app", "mochad", "modbus", "modem_callerid", "modern_forms",
  "moehlenhoff_alpha2", "mold_indicator", "monarch_money", "monoprice", "monzo", "moon",
  "mopeka", "motion_blinds", "motionblinds_ble", "motioneye", "motionmount", "mpd",
  "mqtt_eventstream", "mqtt_json", "mqtt_room", "mqtt_statestream", "msteams", "mullvad",
  "music_assistant", "mutesync", "mvglive", "mycroft", "myq", "mysensors", "mystrom",
  "mythicbeastsdns", "nad", "nam", "namecheapdns", "nanoleaf", "nasweb", "neato",
  "nederlandse_spoorwegen", "ness_alarm", "netatmo", "netdata", "netgear", "netgear_lte",
  "netio", "network", "neurio_energy", "nexia", "nextbus", "nextcloud", "nextdns",
  "nfandroidtv", "nibe_heatpump", "nice_go", "nightscout", "niko_home_control", "nilu",
  "nina", "nissan_leaf", "nmap_tracker", "nmbs", "no_ip", "noaa_tides", "nobo_hub",
  "norway_air", "notify_events", "notion", "nsw_fuel_station", "nsw_rural_fire_service_feed",
  "nuheat", "nuki", "numato", "nut", "nws", "nx584", "nyt_games", "nzbget", "oasa_telematics",
  "obihai", "octoprint", "oem", "ohmconnect", "ollama", "ombi", "omnilogic", "oncue",
  "ondilo_ico", "onewire", "onvif", "open_meteo", "openai_conversation", "openalpr_cloud",
  "openerz", "openevse", "openexchangerates", "opengarage", "openhardwaremonitor", "openhome",
  "opensensemap", "opensky", "opentherm_gw", "openuv", "openweathermap", "opnsense", "opower",
  "opple", "oralb", "oru", "orvibo", "osoenergy", "osramlightify", "otbr", "otp",
  "ourgroceries", "overkiz", "ovo_energy", "owntracks", "p1_monitor", "panasonic_bluray",
  "panasonic_viera", "pandora", "panel_iframe", "peco", "pegel_online", "pencom", "permobil",
  "persistent_notification", "person", "philips_js", "pi_hole", "picnic", "picotts",
  "pilight", "ping", "pioneer", "pjlink", "plaato", "plant", "plex", "plum_lightpad",
  "pocketcasts", "point", "poolsense", "powerwall", "private_ble_device", "profiler",
  "progettihwsw", "proliphix", "prometheus", "prosegur", "prowl", "proximity", "proxmoxve",
  "prusalink", "ps4", "pulseaudio_loopback", "pure_energie", "purpleair", "push",
  "pushbullet", "pushover", "pushsafer", "pvoutput", "pvpc_hourly_pricing", "pyload",
  "qbittorrent", "qingping", "qld_bushfire", "qnap", "qnap_qsw", "qrcode", "quantum_gateway",
  "qvr_pro", "qwikswitch", "rabbitair", "rachio", "radarr", "radio_browser", "radiotherm",
  "raincloud", "rainforest_eagle", "rainforest_raven", "rainmachine", "random", "rapt_ble",
  "raspyrfm", "rdw", "recollect_waste", "recorder", "recswitch", "reddit", "refoss",
  "rejseplanen", "remember_the_milk", "remote_rpi_gpio", "renson", "repetier", "rest",
  "rest_command", "rflink", "rfxtrx", "rhasspy", "ridwell", "ring", "ripple", "risco",
  "rituals_perfume_genie", "rmvtransport", "roborock", "rocketchat", "roku", "romy", "roomba",
  "roon", "route53", "rova", "rpi_camera", "rpi_power", "rss_feed_template", "rtorrent",
  "rtsp_to_webrtc", "ruckus_unleashed", "russound_rnet", "ruuvi_gateway", "ruuvitag_ble",
  "rympro", "sabnzbd", "saj", "samsungtv", "sanix", "satel_integra", "schlage", "schluter",
  "scrape", "screenlogic", "scsgate", "season", "sendgrid", "sense", "sensibo",
  "sensirion_ble", "sensorpro", "sensorpush", "sensoterra", "sentry", "senz", "serial",
  "serial_pm", "sesame", "seven_segments", "seventeentrack", "sfr_box", "sharkiq",
  "shell_command", "shelly", "shodan", "shopping_list", "sia", "sigfox", "sighthound",
  "signal_messenger", "simplefin", "simplepush", "simplisafe", "simulated", "sinch",
  "sisyphus", "sky_hub", "sky_remote", "skybeacon", "skybell", "slack", "sleepiq", "slide",
  "slimproto", "sma", "smappee", "smart_meter_texas", "smartthings", "smarttub", "smarty",
  "smhi", "smlight", "sms", "smtp", "snapcast", "snips", "snmp", "snooz", "solaredge",
  "solaredge_local", "solax", "soma", "somfy_mylink", "sonarr", "songpal", "sonos",
  "sony_projector", "soundtouch", "spaceapi", "spc", "speedtestdotnet", "spider", "splunk",
  "spotify", "sql", "squeezebox", "srp_energy", "ssdp", "starline", "starlingbank",
  "starlink", "startca", "statistics", "statsd", "steam_online", "steamist", "stiebel_eltron",
  "stream", "streamlabswater", "subaru", "sun", "sunweg", "supervisord", "supla",
  "surepetcare", "swiss_hydrological_data", "swiss_public_transport", "swisscom",
  "switch_as_x", "switchbee", "switchbot", "switchbot_cloud", "switcher_kis", "switchmate",
  "syncthing", "syncthru", "synology_chat", "synology_dsm", "synology_srm", "syslog",
  "system_bridge", "systemmonitor", "tado", "tailscale", "tailwind", "tami4", "tank_utility",
  "tankerkoenig", "tapsaff", "tasmota", "tautulli", "tcp", "technove", "ted5000", "telegram",
  "telegram_bot", "tellduslive", "tellstick", "telnet", "temper", "template", "tensorflow",
  "tesla_fleet", "tesla_wall_connector", "teslemetry", "tessie", "tfiac", "thermobeacon",
  "thermopro", "thermoworks_smoke", "thethingsnetwork", "thingspeak", "thinkingcleaner",
  "thomson", "thread", "threshold", "tibber", "tikteck", "tile", "tilt_ble", "time_date",
  "tmb", "tod", "todoist", "tolo", "tomato", "tomorrowio", "toon", "torque", "touchline",
  "touchline_sl", "tplink", "tplink_lte", "tplink_omada", "traccar", "traccar_server",
  "tractive", "tradfri", "trafikverket_camera", "trafikverket_ferry", "trafikverket_train",
  "trafikverket_weatherstation", "transmission", "transport_nsw", "travisci", "trend",
  "triggercmd", "tuya", "twilio", "twilio_call", "twilio_sms", "twinkly", "twitch", "twitter",
  "ubus", "uk_transport", "ukraine_alarm", "unifi", "unifi_direct", "unifiled",
  "unifiprotect", "universal", "upb", "upc_connect", "upcloud", "upnp", "uptime",
  "uptimerobot", "usb", "usgs_earthquakes_feed", "utility_meter", "uvc", "v2c", "vallox",
  "vasttrafik", "velux", "venstar", "vera", "verisure", "versasense", "version", "vesync",
  "viaggiatreno", "vilfo", "vivotek", "vizio", "vlc", "vlc_telnet", "vodafone_station",
  "voicerss", "voip", "volkszaehler", "volumio", "volvooncall", "vulcan", "vultr", "w800rf32",
  "wake_on_lan", "wallbox", "waqi", "waterfurnace", "watson_iot", "watson_tts", "watttime",
  "waze_travel_time", "weatherflow", "weatherflow_cloud", "weatherkit", "webmin", "webostv",
  "weheat", "wemo", "whirlpool", "whois", "wiffi", "wilight", "wirelesstag", "withings",
  "wiz", "wled", "wmspro", "wolflink", "workday", "worldclock", "worldtidesinfo",
  "worxlandroid", "ws66i", "wsdot", "wyoming", "x10", "xbox", "xeoma", "xiaomi",
  "xiaomi_aqara", "xiaomi_ble", "xiaomi_miio", "xiaomi_tv", "xmpp", "xs1", "yale",
  "yale_smart_alarm", "yalexs_ble", "yamaha", "yamaha_musiccast", "yandex_transport",
  "yandextts", "yardian", "yeelight", "yeelightsunflower", "yi", "yolink", "youless",
  "youtube", "zabbix", "zamg", "zengge", "zeroconf", "zerproc", "zestimate", "zeversolar",
  "zha", "zhong_hong", "ziggo_mediabox_xl", "zodiac", "zoneminder", "zwave_js", "zwave_me"
]

/-- The explicitly listed entries of `NO_QUALITY_SCALE` (the part after the
splatted `Platform` set comprehension), copied verbatim from the source. -/
def NO_QUALITY_SCALE_LISTED : List String := [
  "api", "application_credentials", "auth", "automation", "blueprint", "config",
  "configurator", "counter", "default_config", "device_automation", "device_tracker",
  "diagnostics", "ffmpeg", "file_upload", "frontend", "hardkernel", "hardware", "history",
  "homeassistant", "homeassistant_alerts", "homeassistant_green", "homeassistant_hardware",
  "homeassistant_sky_connect", "homeassistant_yellow", "image_upload", "input_boolean",
  "input_button", "input_datetime", "input_number", "input_select", "input_text",
  "intent_script", "intent", "logbook", "logger", "lovelace", "media_source", "my",
  "onboarding", "panel_custom", "proxy", "python_script", "raspberry_pi", "recovery_mode",
  "repairs", "schedule", "script", "search", "system_health", "system_log", "tag", "timer",
  "trace", "webhook", "websocket_api", "zone"
]

/-- The forbidden set `NO_QUALITY_SCALE = [*{platform.value for platform in Platform}, ...]`.
Modelled from the spec: the `Platform` enum lives in `homeassistant/const.py`,
which is not part of the embedded source; the spec describes its values only
as "core platform-level helper domains", so they are passed as a parameter
`platformDomains` and prepended to the explicitly listed entries. -/
def NO_QUALITY_SCALE (platformDomains : List String) : List String :=
  platformDomains ++ NO_QUALITY_SCALE_LISTED

/-- A parsed YAML value, with just the structure the validator inspects:
strings, mappings (association lists, as Python `dict` items), sequences
(Python lists, which like dicts are unhashable), and `other` for every
remaining scalar (numbers, booleans, null — all hashable).  The
hashable/unhashable split matters because the source's
`status not in {"done", "exempt"}` hashes the status value. -/
inductive Yaml where
  | str (s : String)
  | map (entries : List (String × Yaml))
  | seq
  | other

/-- Lookup in a YAML mapping (Python `dict` subscript / `in`). -/
def ylookup (k : String) : List (String × Yaml) → Option Yaml
  | [] => none
  | (k', v) :: rest => if k' = k then some v else ylookup k rest

/-- Voluptuous `vol.In(["todo", "done"])` applied to a YAML value: membership by
equality in the allowed list. -/
def isTodoDone : Yaml → Bool
  | .str s => s == "todo" || s == "done"
  | _ => false

/-- Whether a YAML value is a string (matches voluptuous `str`). -/
def isStr : Yaml → Bool
  | .str _ => true
  | _ => false

/-- Voluptuous object schemas reject keys other than the declared
`status` and `comment`. -/
def objKeysOk (m : List (String × Yaml)) : Bool :=
  m.all (fun p => p.1 == "status" || p.1 == "comment")

/-- The second alternative of the rule-entry schema:
`{Required("status"): In(["todo", "done"]), Optional("comment"): str}`. -/
def matchesTodoDoneObj (m : List (String × Yaml)) : Bool :=
  objKeysOk m &&
  (match ylookup "status" m with
   | some v => isTodoDone v
   | none => false) &&
  (match ylookup "comment" m with
   | none => true
   | some v => isStr v)

/-- The third alternative of the rule-entry schema:
`{Required("status"): "exempt", Required("comment"): str}`. -/
def matchesExemptObj (m : List (String × Yaml)) : Bool :=
  objKeysOk m &&
  (match ylookup "status" m with
   | some (.str s) => s == "exempt"
   | _ => false) &&
  (match ylookup "comment" m with
   | some v => isStr v
   | none => false)

/-- Voluptuous `vol.Any` of the three rule-entry alternatives. -/
def validEntry : Yaml → Bool
  | .str s => s == "todo" || s == "done"
  | .map m => matchesTodoDoneObj m || matchesExemptObj m
  | _ => false

/-- The document schema `SCHEMA`: a required `rules` key (and no other key)
whose value is a mapping from catalog rule names (each optional) to valid
rule entries.  Voluptuous semantics (extra keys rejected, `Required` /
`Optional` markers) are modelled from the spec, which states them in §4.2;
the schema's structure is transcribed from the source. -/
def SCHEMA_valid (data : List (String × Yaml)) : Bool :=
  data.all (fun p => p.1 == "rules") &&
  (match ylookup "rules" data with
   | some (.map rules) =>
       rules.all (fun p => RULE_NAMES.contains p.1 && validEntry p.2)
   | _ => false)

/-- Python exceptions that `validate_iqs_file` can raise past its boundary
(it catches only `HomeAssistantError` and `vol.Invalid`). -/
inductive PyError where
  | keyError
  | attributeError
  | typeError
deriving DecidableEq, Repr

/-- One recorded error (`integration.add_error("quality_scale", message)`),
as a tagged value; `renderErr` gives the exact message text. -/
inductive Err where
  | missingDefinition
  | manifestScaleWithoutFile
  | virtualWithFile
  | forbiddenWithFile
  | grandfatheredWithFile
  | invalidYaml
  | schemaViolation
  | validatorError (rule : String) (msg : String)
  | ruleUrl (rule : String)
  | tierShortfall (tier : Tier) (missing : List String)
deriving DecidableEq, Repr

/-- Python `scale.name.lower()`. -/
def tierName : Tier → String
  | .bronze => "bronze"
  | .silver => "silver"
  | .gold => "gold"
  | .platinum => "platinum"

/-- The exact message text of each recorded error, from the source.  The
`schemaViolation` message interpolates the file path and
`humanize_error(data, err)` from the third-party voluptuous library, neither
of which is modelled; a placeholder stands for those parts. -/
def renderErr : Err → String
  | .missingDefinition =>
      "Quality scale definition not found. New integrations are required to at least reach the Bronze tier."
  | .manifestScaleWithoutFile =>
      "Quality scale definition not found. Integrations that set a manifest quality scale must have a quality scale definition."
  | .virtualWithFile =>
      "Virtual integrations are not allowed to have a quality scale file."
  | .forbiddenWithFile =>
      "This integration is not supposed to have a quality scale file."
  | .grandfatheredWithFile =>
      "Quality scale file found! Please remove from script/hassfest/quality_scale.py"
  | .invalidYaml => "Invalid quality_scale.yaml"
  | .schemaViolation => "Invalid <iqs_file>: <humanized schema error>"
  | .validatorError rule msg => "[" ++ rule ++ "] " ++ msg
  | .ruleUrl rule => RULE_URL rule
  | .tierShortfall t missing =>
      "Quality scale tier " ++ tierName t ++
      " requires quality scale rules to be met:\n" ++
      String.intercalate "\n" (missing.map (fun r => "  " ++ r ++ ": todo"))

/-- State of `<integration.path>/quality_scale.yaml` as the validator sees
it: absent, or present with the outcome of `load_yaml_dict` (`none` models a
`HomeAssistantError` on parsing, `some data` the parsed dictionary). -/
inductive FileState where
  | noFile
  | file (parse : Option (List (String × Yaml)))

/-- The attributes of `Integration` that `validate_iqs_file` consumes. -/
structure Integration where
  domain : String
  core : Bool
  integration_type : String
  quality_scale : Option String

/-- Python `rule_value["status"] if isinstance(rule_value, dict) else rule_value`:
raises `KeyError` when a mapping entry has no `status` key. -/
def entryStatus : Yaml → Except PyError Yaml
  | .map m =>
      match ylookup "status" m with
      | some v => .ok v
      | none => .error .keyError
  | v => .ok v

/-- Python `data.get("rules", {})` followed by `.items()`: a missing key yields the
empty mapping, a non-mapping value raises `AttributeError` at `.items()`. -/
def getRules (data : List (String × Yaml)) : Except PyError (List (String × Yaml)) :=
  match ylookup "rules" data with
  | none => .ok []
  | some (.map rules) => .ok rules
  | some _ => .error .attributeError

/-- The status-classification loop: returns `(rules_met, rules_done)`, the
names whose status is `done` or `exempt`, resp. exactly `done`, in document
order; propagates the `KeyError` of `entryStatus`, and raises `TypeError`
when the status value is unhashable (a mapping or a sequence), because
`status not in {"done", "exempt"}` hashes it; any other hashable non-string
status is simply not in the set and is skipped. -/
def statusSets : List (String × Yaml) → Except PyError (List String × List String)
  | [] => .ok ([], [])
  | (name, v) :: rest =>
      match entryStatus v with
      | .error e => .error e
      | .ok (.map _) => .error .typeError
      | .ok .seq => .error .typeError
      | .ok (.str s) =>
          match statusSets rest with
          | .error e => .error e
          | .ok (met, done) =>
              if s = "done" then .ok (name :: met, name :: done)
              else if s = "exempt" then .ok (name :: met, done)
              else .ok (met, done)
      | .ok .other =>
          match statusSets rest with
          | .error e => .error e
          | .ok (met, done) => .ok (met, done)

/-- The structural-validator dispatch loop over `rules_done`.  Validator
bodies are external: `vResults rule` is what `VALIDATORS[rule].validate(...)`
returns for the rules that have a validator.  A rule with a registered
validator and a non-empty result contributes one tagged error per returned
string plus the documentation-link error. -/
def validatorErrors (vResults : String → List String) : List String → List Err
  | [] => []
  | r :: rest =>
      (if VALIDATOR_NAMES.contains r then
        if (vResults r).isEmpty then []
        else (vResults r).map (fun e => Err.validatorError r e) ++ [Err.ruleUrl r]
      else []) ++ validatorErrors vResults rest

/-- Python `sorted` on strings: a lexicographic sort. -/
def sortStrings (l : List String) : List String := l.insertionSort (· ≤ ·)

/-- Python `set(SCALE_RULES[scale]) - rules_met`, as the ordered list of tier rules
not met. -/
def missingRules (t : Tier) (met : List String) : List String :=
  (SCALE_RULES t).filter (fun r => !met.contains r)

/-- The tier-completion checker: walks the tiers in ascending order, breaks
at the first tier above the declared one, and emits one shortfall error (with
the sorted missing-rule list) per incomplete tier at or below it.  Reports
nothing when no tier is declared. -/
def tierErrors (declared : Option Tier) (met : List String) : List Err :=
  match declared with
  | none => []
  | some d =>
      (allTiers.takeWhile (fun t => !(decide (d < t)))).filterMap (fun t =>
        if missingRules t met = [] then none
        else some (Err.tierShortfall t (sortStrings (missingRules t met))))

/-- The embedding of `validate_iqs_file(config, integration)`.  The result is
the ordered list of errors recorded on the integration's sink, or the Python
exception that escapes.  `platformDomains` supplies the `Platform` enum
values of `NO_QUALITY_SCALE` and `vResults` the external validator bodies;
`file` is the observed state of `quality_scale.yaml`. -/
def validate_iqs_file (platformDomains : List String)
    (vResults : String → List String) (integration : Integration)
    (file : FileState) : Except PyError (List Err) :=
  if !integration.core then .ok []
  else
    match file with
    | .noFile =>
        if !(INTEGRATIONS_WITHOUT_QUALITY_SCALE_FILE.contains integration.domain)
            && !((NO_QUALITY_SCALE platformDomains).contains integration.domain)
            && !(integration.integration_type == "virtual") then
          .ok [Err.missingDefinition]
        else if (integration.quality_scale.bind QUALITY_SCALE_TIERS).isSome then
          .ok [Err.manifestScaleWithoutFile]
        else
          .ok []
    | .file parse =>
        if integration.integration_type == "virtual" then
          .ok [Err.virtualWithFile]
        else if (NO_QUALITY_SCALE platformDomains).contains integration.domain then
          .ok [Err.forbiddenWithFile]
        else if INTEGRATIONS_WITHOUT_QUALITY_SCALE_FILE.contains integration.domain then
          .ok [Err.grandfatheredWithFile]
        else
          match parse with
          | none => .ok [Err.invalidYaml]
          | some data =>
              match getRules data with
              | .error e => .error e
              | .ok rules =>
                  match statusSets rules with
                  | .error e => .error e
                  | .ok (met, done) =>
                      .ok ((if SCHEMA_valid data then [] else [Err.schemaViolation]) ++
                           validatorErrors vResults done ++
                           tierErrors (integration.quality_scale.bind QUALITY_SCALE_TIERS) met)

instance {ε α : Type} [DecidableEq ε] [DecidableEq α] : DecidableEq (Except ε α) := fun x y =>
  match x, y with
  | .ok a, .ok b =>
      if h : a = b then isTrue (by rw [h]) else isFalse (by simp [h])
  | .error a, .error b =>
      if h : a = b then isTrue (by rw [h]) else isFalse (by simp [h])
  | .ok _, .error _ => isFalse (by simp)
  | .error _, .ok _ => isFalse (by simp)

/-- C2: the derived tier-to-rule-names mapping `SCALE_RULES` is a partition of
the catalog: the rule-name lists of distinct tiers are disjoint, every tier
occurs in the tier enumeration, the concatenation over the tiers is exactly
the full catalog rule-name list, and that list has no duplicates. -/
theorem C2_scale_rules_partition :
    (∀ t1 t2 : Tier, t1 ≠ t2 → ∀ r ∈ SCALE_RULES t1, r ∉ SCALE_RULES t2)
    ∧ (∀ t : Tier, t ∈ allTiers)
    ∧ (allTiers.map SCALE_RULES).flatten = RULE_NAMES
    ∧ RULE_NAMES.Nodup := by
  refine ⟨fun t1 t2 h => ?_, fun t => ?_, by decide, by decide⟩
  · cases t1 <;> cases t2 <;> first
      | exact absurd rfl h
      | decide
  · cases t <;> decide

/-- Witness for C2: the concrete Bronze rule "brands" is not a Silver rule. -/
theorem C2_scale_rules_partition_witness : "brands" ∉ SCALE_RULES Tier.silver :=
  C2_scale_rules_partition.1 Tier.bronze Tier.silver (by decide) "brands" (by decide)

/-- C3 counterexample: a core, non-virtual integration on the forbidden
domain "api" with no quality-scale file but with `quality_scale: bronze` in
its manifest IS reported (the claim says no error is reported regardless of
the manifest tier). -/
theorem C3_counterexample :
    validate_iqs_file [] (fun _ => []) ⟨"api", true, "hub", some "bronze"⟩ .noFile
      ≠ .ok [] := by decide

/-- C3 (amended): for every core, non-virtual integration whose domain is in
the forbidden set and that has no quality_scale.yaml file, validation reports
no error when the manifest declares no valid tier, and reports exactly the
manifest-scale-without-definition error when it does. -/
theorem C3_forbidden_domain_no_file (pf : List String) (vr : String → List String)
    (i : Integration) (h1 : i.core = true) (h2 : i.integration_type ≠ "virtual")
    (h3 : i.domain ∈ NO_QUALITY_SCALE pf) :
    validate_iqs_file pf vr i .noFile =
      .ok (if (i.quality_scale.bind QUALITY_SCALE_TIERS).isSome
           then [Err.manifestScaleWithoutFile] else []) := by
  unfold validate_iqs_file
  have hc : (NO_QUALITY_SCALE pf).contains i.domain = true := by simpa using h3
  rw [h1]
  simp only [hc, Bool.not_true, Bool.false_and, Bool.and_false, Bool.not_false,
    Bool.false_eq_true, if_false, ite_false, Bool.true_and]
  cases hq : (i.quality_scale.bind QUALITY_SCALE_TIERS) <;> simp [hq]

/-- Witness for C3's amended theorem: the forbidden domain "api", core,
non-virtual, no file, no manifest tier — no error recorded. -/
theorem C3_forbidden_domain_no_file_witness :
    validate_iqs_file [] (fun _ => []) ⟨"api", true, "hub", none⟩ .noFile = .ok [] := by
  have h := C3_forbidden_domain_no_file [] (fun _ => [])
    ⟨"api", true, "hub", none⟩ rfl (by decide) (by decide)
  simpa using h

/-- C5: a core, non-virtual integration in neither exemption list and with no
quality-scale file gets exactly one error, the missing-definition message
stating that new integrations must at least reach the Bronze tier. -/
theorem C5_missing_file_error (pf : List String) (vr : String → List String)
    (i : Integration) (h1 : i.core = true) (h2 : i.integration_type ≠ "virtual")
    (h3 : i.domain ∉ INTEGRATIONS_WITHOUT_QUALITY_SCALE_FILE)
    (h4 : i.domain ∉ NO_QUALITY_SCALE pf) :
    validate_iqs_file pf vr i .noFile = .ok [Err.missingDefinition]
    ∧ renderErr Err.missingDefinition =
        "Quality scale definition not found. New integrations are required to at least reach the Bronze tier." := by
  refine ⟨?_, rfl⟩
  unfold validate_iqs_file
  have hg : INTEGRATIONS_WITHOUT_QUALITY_SCALE_FILE.contains i.domain = false := by
    simpa using h3
  have hn : (NO_QUALITY_SCALE pf).contains i.domain = false := by simpa using h4
  have hv : (i.integration_type == "virtual") = false := by simpa using h2
  rw [h1]
  simp only [hg, hn, hv, Bool.not_false, Bool.not_true, Bool.and_self,
    Bool.true_and, Bool.false_eq_true, if_false, ite_false, if_true, ite_true]

/-- Witness for C5 at a concrete fresh domain. -/
theorem C5_missing_file_error_witness :
    validate_iqs_file [] (fun _ => []) ⟨"totally_new_domain", true, "hub", none⟩ .noFile
      = .ok [Err.missingDefinition] :=
  (C5_missing_file_error [] (fun _ => []) ⟨"totally_new_domain", true, "hub", none⟩
    rfl (by decide) (by decide) (by decide)).1

/-- C9 (code bug): `validate_iqs_file` can raise `KeyError` past the core
boundary on a parseable document that fails schema validation: after
recording the schema error it still executes `rule_value["status"]` on a
mapping entry that has no `status` key. -/
theorem C9_schema_invalid_raises_keyerror :
    SCHEMA_valid [("rules", Yaml.map [("config-flow", Yaml.map [("comment", Yaml.str "x")])])] = false
    ∧ validate_iqs_file [] (fun _ => []) ⟨"totally_new_domain", true, "hub", none⟩
        (.file (some [("rules", Yaml.map [("config-flow", Yaml.map [("comment", Yaml.str "x")])])]))
      = .error PyError.keyError := ⟨rfl, rfl⟩

/-- C10: a manifest `quality_scale` string that is not exactly one of the four
lowercase tier names is treated as if no tier were declared: validation
behaves identically to the same integration with no manifest tier, so the
declared-without-file error is not raised and the tier-completion check does
no work. -/
theorem C10_unknown_tier_ignored (pf : List String) (vr : String → List String)
    (i : Integration) (file : FileState) (s : String)
    (hq : i.quality_scale = some s)
    (hs : s ∉ ["bronze", "silver", "gold", "platinum"]) :
    validate_iqs_file pf vr i file =
      validate_iqs_file pf vr { i with quality_scale := none } file := by
  simp only [List.mem_cons, List.not_mem_nil, or_false, not_or] at hs
  have hnone : QUALITY_SCALE_TIERS s = none := by
    unfold QUALITY_SCALE_TIERS
    simp [hs.1, hs.2.1, hs.2.2.1, hs.2.2.2]
  unfold validate_iqs_file
  simp [hq, hnone]

/-- Witness for C10 at the manifest value "internal". -/
theorem C10_unknown_tier_ignored_witness :
    validate_iqs_file [] (fun _ => []) ⟨"totally_new_domain", true, "hub", some "internal"⟩ .noFile
      = validate_iqs_file [] (fun _ => []) ⟨"totally_new_domain", true, "hub", none⟩ .noFile :=
  C10_unknown_tier_ignored [] (fun _ => []) ⟨"totally_new_domain", true, "hub", some "internal"⟩
    .noFile "internal" rfl (by decide)

lemma mem_takeWhile_tiers (d t : Tier) :
    (t ∈ allTiers.takeWhile (fun t' => !(decide (d < t')))) ↔ ¬ d < t := by
  cases d <;> cases t <;> decide

lemma tier_le_iff_not_lt (d t : Tier) : t ≤ d ↔ ¬ d < t := by
  cases d <;> cases t <;> decide

lemma mem_tierErrors (d : Tier) (met : List String) (e : Err) :
    e ∈ tierErrors (some d) met ↔
      ∃ t, ¬ d < t ∧ missingRules t met ≠ [] ∧
        e = Err.tierShortfall t (sortStrings (missingRules t met)) := by
  unfold tierErrors
  rw [List.mem_filterMap]
  constructor
  · rintro ⟨t, ht, hf⟩
    have hp := (mem_takeWhile_tiers d t).1 ht
    by_cases hm : missingRules t met = []
    · rw [if_pos hm] at hf
      cases hf
    · rw [if_neg hm] at hf
      injection hf with hf
      exact ⟨t, hp, hm, hf.symm⟩
  · rintro ⟨t, hp, hm, rfl⟩
    exact ⟨t, (mem_takeWhile_tiers d t).2 hp, by rw [if_neg hm]⟩

lemma tierErrors_nodup (d : Tier) (met : List String) :
    (tierErrors (some d) met).Nodup := by
  unfold tierErrors
  refine List.Nodup.filterMap ?_ ?_
  · intro a a' b hb hb'
    by_cases hm : missingRules a met = []
    · simp [hm] at hb
    · by_cases hm' : missingRules a' met = []
      · simp [hm'] at hb'
      · simp only [Option.mem_def, if_neg hm, if_neg hm',
          Option.some.injEq] at hb hb'
        rw [← hb'] at hb
        exact (Err.tierShortfall.inj hb).1
  · exact (List.takeWhile_sublist _).nodup (by decide)

/-- C1: with a declared tier `d`, the tier-completion checker emits exactly
one shortfall error for each tier `t ≤ d` whose required rules are not all
met, that error carrying exactly that tier's missing rule names sorted
lexicographically (a permutation of the missing set, sorted under `≤`), and
rendered with a `todo` annotation per rule; it emits nothing for tiers above
`d`; and with no declared tier it emits nothing at all. -/
theorem C1_tier_completion (d : Tier) (met : List String) :
    (∀ t : Tier, t ≤ d → missingRules t met ≠ [] →
      (tierErrors (some d) met).count
        (Err.tierShortfall t (sortStrings (missingRules t met))) = 1)
    ∧ (∀ t ms, Err.tierShortfall t ms ∈ tierErrors (some d) met →
        t ≤ d ∧ ms = sortStrings (missingRules t met) ∧ missingRules t met ≠ [])
    ∧ (∀ t ms, d < t → Err.tierShortfall t ms ∉ tierErrors (some d) met)
    ∧ (∀ l : List String, (sortStrings l).Sorted (· ≤ ·) ∧ List.Perm (sortStrings l) l)
    ∧ (∀ t ms, renderErr (Err.tierShortfall t ms) =
        "Quality scale tier " ++ tierName t ++
        " requires quality scale rules to be met:\n" ++
        String.intercalate "\n" (ms.map (fun r => "  " ++ r ++ ": todo")))
    ∧ tierErrors none met = [] := by
  refine ⟨?_, ?_, ?_, ?_, fun _ _ => rfl, rfl⟩
  · intro t ht hm
    exact List.count_eq_one_of_mem (tierErrors_nodup d met)
      ((mem_tierErrors d met _).2 ⟨t, (tier_le_iff_not_lt d t).1 ht, hm, rfl⟩)
  · intro t ms hmem
    rcases (mem_tierErrors d met _).1 hmem with ⟨t', hp, hm, heq⟩
    obtain ⟨rfl, rfl⟩ := Err.tierShortfall.inj heq
    exact ⟨(tier_le_iff_not_lt d t).2 hp, rfl, hm⟩
  · intro t ms hlt hmem
    rcases (mem_tierErrors d met _).1 hmem with ⟨t', hp, _, heq⟩
    obtain ⟨rfl, -⟩ := Err.tierShortfall.inj heq
    exact hp hlt
  · intro l
    exact ⟨List.sorted_insertionSort _ l, List.perm_insertionSort _ l⟩

/-- Witness for C1: declared tier Bronze with nothing met yields exactly one
Bronze shortfall error. -/
theorem C1_tier_completion_witness :
    (tierErrors (some Tier.bronze) []).count
      (Err.tierShortfall Tier.bronze (sortStrings (missingRules Tier.bronze []))) = 1 :=
  (C1_tier_completion Tier.bronze []).1 Tier.bronze (by decide) (by decide)

/-- The five presence-policy error kinds of §4.3: file missing when required,
tier declared without a file, file present for a virtual integration, file
present for a forbidden domain, file present for a grandfathered domain. -/
def isPresenceErr : Err → Bool
  | .missingDefinition => true
  | .manifestScaleWithoutFile => true
  | .virtualWithFile => true
  | .forbiddenWithFile => true
  | .grandfatheredWithFile => true
  | _ => false

lemma validatorErrors_not_presence (vr : String → List String) :
    ∀ l, ∀ e ∈ validatorErrors vr l, isPresenceErr e = false := by
  intro l
  induction l with
  | nil => intro e he; cases he
  | cons r rest ih =>
      intro e he
      rcases List.mem_append.1 he with h | h
      · split at h
        · split at h
          · cases h
          · rcases List.mem_append.1 h with h | h
            · rcases List.mem_map.1 h with ⟨msg, _, rfl⟩
              rfl
            · rw [List.mem_singleton.{0}] at h
              subst h
              rfl
        · cases h
      · exact ih e h

lemma tierErrors_not_presence (declared : Option Tier) (met : List String) :
    ∀ e ∈ tierErrors declared met, isPresenceErr e = false := by
  intro e he
  cases declared with
  | none => cases he
  | some d =>
      rcases (mem_tierErrors d met e).1 he with ⟨t, _, _, rfl⟩
      rfl

/-- C4: every presence-policy branch that records an error returns
immediately: whenever a presence-policy error appears in the outcome of a
validation call, it is the only recorded error — no schema, validator or
tier-completion error accompanies it. -/
theorem C4_presence_policy_short_circuits (pf : List String)
    (vr : String → List String) (i : Integration) (file : FileState)
    (l : List Err) (hres : validate_iqs_file pf vr i file = .ok l)
    (e : Err) (he : e ∈ l) (hp : isPresenceErr e = true) :
    l = [e] := by
  unfold validate_iqs_file at hres
  split at hres
  · injection hres with h
    subst h
    cases he
  · split at hres
    · split at hres
      · injection hres with h
        subst h
        rw [List.mem_singleton.{0}] at he
        rw [he]
      · split at hres
        · injection hres with h
          subst h
          rw [List.mem_singleton.{0}] at he
          rw [he]
        · injection hres with h
          subst h
          cases he
    · split at hres
      · injection hres with h
        subst h
        rw [List.mem_singleton.{0}] at he
        rw [he]
      · split at hres
        · injection hres with h
          subst h
          rw [List.mem_singleton.{0}] at he
          rw [he]
        · split at hres
          · injection hres with h
            subst h
            rw [List.mem_singleton.{0}] at he
            rw [he]
          · split at hres
            · injection hres with h
              subst h
              rw [List.mem_singleton.{0}] at he
              rw [he]
            · split at hres
              · cases hres
              · split at hres
                · cases hres
                · injection hres with h
                  subst h
                  rcases List.mem_append.1 he with h | h
                  · rcases List.mem_append.1 h with h | h
                    · split at h
                      · cases h
                      · rw [List.mem_singleton.{0}] at h
                        subst h
                        cases hp
                    · rw [validatorErrors_not_presence vr _ e h] at hp
                      cases hp
                  · rw [tierErrors_not_presence _ _ e h] at hp
                    cases hp

/-- Witness for C4: a virtual integration with a file gets exactly the
virtual-integration presence error as its whole outcome. -/
theorem C4_presence_policy_short_circuits_witness :
    ([Err.virtualWithFile] : List Err) = [Err.virtualWithFile] :=
  C4_presence_policy_short_circuits [] (fun _ => [])
    ⟨"totally_new_domain", true, "virtual", none⟩ (.file none)
    [Err.virtualWithFile] (by decide) Err.virtualWithFile (by decide) rfl

lemma validatorErrors_cons (vr : String → List String) (a : String)
    (rest : List String) :
    validatorErrors vr (a :: rest) = validatorErrors vr [a] ++ validatorErrors vr rest := by
  simp [validatorErrors]

lemma mem_validatorErrors_validatorError (vr : String → List String) :
    ∀ (l : List String) (r msg : String),
      Err.validatorError r msg ∈ validatorErrors vr l →
      r ∈ l ∧ VALIDATOR_NAMES.contains r = true ∧ msg ∈ vr r ∧ vr r ≠ [] := by
  intro l
  induction l with
  | nil => intro r msg h; cases h
  | cons a rest ih =>
      intro r msg h
      rcases List.mem_append.1 h with h | h
      · split at h
        case isTrue hc =>
          split at h
          case isTrue hemp => cases h
          case isFalse hemp =>
            rcases List.mem_append.1 h with h | h
            · rcases List.mem_map.1 h with ⟨m, hm, heq⟩
              obtain ⟨rfl, rfl⟩ := Err.validatorError.inj heq
              refine ⟨.head _, hc, hm, ?_⟩
              intro hnil
              rw [hnil] at hemp
              exact hemp rfl
            · rw [List.mem_singleton] at h
              simp at h
        case isFalse => cases h
      · obtain ⟨h1, h2, h3, h4⟩ := ih r msg h
        exact ⟨.tail _ h1, h2, h3, h4⟩

lemma mem_validatorErrors_ruleUrl (vr : String → List String) :
    ∀ (l : List String) (r : String),
      Err.ruleUrl r ∈ validatorErrors vr l →
      r ∈ l ∧ VALIDATOR_NAMES.contains r = true ∧ vr r ≠ [] := by
  intro l
  induction l with
  | nil => intro r h; cases h
  | cons a rest ih =>
      intro r h
      rcases List.mem_append.1 h with h | h
      · split at h
        case isTrue hc =>
          split at h
          case isTrue hemp => cases h
          case isFalse hemp =>
            rcases List.mem_append.1 h with h | h
            · rcases List.mem_map.1 h with ⟨m, hm, heq⟩
              simp at heq
            · rw [List.mem_singleton] at h
              obtain rfl := Err.ruleUrl.inj h
              refine ⟨.head _, hc, ?_⟩
              intro hnil
              rw [hnil] at hemp
              exact hemp rfl
        case isFalse => cases h
      · obtain ⟨h1, h2, h3⟩ := ih r h
        exact ⟨.tail _ h1, h2, h3⟩

lemma count_validatorError_map (r msg : String) (errs : List String) :
    (errs.map (fun e => Err.validatorError r e)).count (Err.validatorError r msg)
      = errs.count msg := by
  induction errs with
  | nil => rfl
  | cons a rest ih =>
      simp only [List.map_cons, List.count_cons, ih]
      by_cases h : a = msg
      · simp [h]
      · simp [h]

lemma validatorErrors_counts (vr : String → List String) :
    ∀ (l : List String), l.Nodup → ∀ r, r ∈ l →
      VALIDATOR_NAMES.contains r = true → vr r ≠ [] →
      (validatorErrors vr l).count (Err.ruleUrl r) = 1
      ∧ ∀ msg, (validatorErrors vr l).count (Err.validatorError r msg)
          = (vr r).count msg := by
  intro l
  induction l with
  | nil => intro _ r hr; cases hr
  | cons a rest ih =>
      intro hnd r hr hv hne
      obtain ⟨hna, hnd'⟩ := List.nodup_cons.1 hnd
      have hemp : (vr r).isEmpty = false := by
        cases hvr : vr r with
        | nil => exact absurd hvr hne
        | cons x xs => rfl
      rcases List.mem_cons.1 hr with rfl | hr
      · have hv' : r ∈ VALIDATOR_NAMES := by simpa using hv
        have hhead : validatorErrors vr [r] =
            (vr r).map (fun e => Err.validatorError r e) ++ [Err.ruleUrl r] := by
          simp [validatorErrors, hv', hemp]
        have hrest_url : (validatorErrors vr rest).count (Err.ruleUrl r) = 0 :=
          List.count_eq_zero.2 fun h => hna (mem_validatorErrors_ruleUrl vr rest r h).1
        have hrest_msg : ∀ msg,
            (validatorErrors vr rest).count (Err.validatorError r msg) = 0 :=
          fun msg => List.count_eq_zero.2 fun h =>
            hna (mem_validatorErrors_validatorError vr rest r msg h).1
        have hmap_url : ((vr r).map (fun e => Err.validatorError r e)).count
            (Err.ruleUrl r) = 0 :=
          List.count_eq_zero.2 fun h => by
            rcases List.mem_map.1 h with ⟨m, _, heq⟩
            simp at heq
        constructor
        · rw [validatorErrors_cons, List.count_append, hhead, List.count_append,
            hmap_url, hrest_url]
          simp
        · intro msg
          rw [validatorErrors_cons, List.count_append, hhead, List.count_append,
            count_validatorError_map, hrest_msg msg]
          have hurl : ([Err.ruleUrl r].count (Err.validatorError r msg)) = 0 := by
            simp
          rw [hurl]
          omega
      · have har : a ≠ r := fun h => hna (h ▸ hr)
        have hblock_url : (validatorErrors vr [a]).count (Err.ruleUrl r) = 0 :=
          List.count_eq_zero.2 fun h => by
            have hm := (mem_validatorErrors_ruleUrl vr [a] r h).1
            rw [List.mem_singleton] at hm
            exact har hm.symm
        have hblock_msg : ∀ msg,
            (validatorErrors vr [a]).count (Err.validatorError r msg) = 0 :=
          fun msg => List.count_eq_zero.2 fun h => by
            have hm := (mem_validatorErrors_validatorError vr [a] r msg h).1
            rw [List.mem_singleton] at hm
            exact har hm.symm
        obtain ⟨ih1, ih2⟩ := ih hnd' r hr hv hne
        constructor
        · rw [validatorErrors_cons, List.count_append, hblock_url, ih1]
        · intro msg
          rw [validatorErrors_cons, List.count_append, hblock_msg msg, ih2 msg]
          omega

lemma statusSets_done_char :
    ∀ (rules : List (String × Yaml)) (met done : List String),
      statusSets rules = .ok (met, done) →
      ∀ r, r ∈ done ↔ ∃ v, (r, v) ∈ rules ∧ entryStatus v = .ok (.str "done") := by
  intro rules
  induction rules with
  | nil =>
      intro met done h r
      simp only [statusSets, Except.ok.injEq, Prod.mk.injEq] at h
      obtain ⟨-, h2⟩ := h
      rw [← h2]
      simp
  | cons hd rest ih =>
      obtain ⟨name, v⟩ := hd
      intro met done h r
      cases hs : entryStatus v with
      | error e =>
          simp only [statusSets, hs] at h
          exact Except.noConfusion h
      | ok st =>
          cases st with
          | map m =>
              simp only [statusSets, hs] at h
              exact Except.noConfusion h
          | seq =>
              simp only [statusSets, hs] at h
              exact Except.noConfusion h
          | str s =>
              cases hrest : statusSets rest with
              | error e =>
                  simp only [statusSets, hs, hrest] at h
                  exact Except.noConfusion h
              | ok p =>
                  obtain ⟨met', done'⟩ := p
                  simp only [statusSets, hs, hrest] at h
                  have ihr := ih met' done' hrest r
                  by_cases hdone : s = "done"
                  · subst hdone
                    rw [if_pos rfl] at h
                    obtain ⟨h1, h2⟩ := Prod.mk.inj (Except.ok.inj h)
                    subst h1
                    subst h2
                    constructor
                    · intro hr
                      rcases List.mem_cons.1 hr with rfl | hr
                      · exact ⟨v, List.mem_cons_self _ _, hs⟩
                      · obtain ⟨v', hv', he'⟩ := ihr.1 hr
                        exact ⟨v', List.mem_cons_of_mem _ hv', he'⟩
                    · rintro ⟨v', hv', he'⟩
                      rcases List.mem_cons.1 hv' with heq | hv'
                      · obtain ⟨rfl, rfl⟩ := Prod.mk.inj heq
                        exact List.mem_cons_self _ _
                      · exact List.mem_cons_of_mem _ (ihr.2 ⟨v', hv', he'⟩)
                  · by_cases hex : s = "exempt"
                    · subst hex
                      rw [if_neg hdone, if_pos rfl] at h
                      obtain ⟨h1, h2⟩ := Prod.mk.inj (Except.ok.inj h)
                      subst h1
                      subst h2
                      constructor
                      · intro hr
                        obtain ⟨v', hv', he'⟩ := ihr.1 hr
                        exact ⟨v', List.mem_cons_of_mem _ hv', he'⟩
                      · rintro ⟨v', hv', he'⟩
                        rcases List.mem_cons.1 hv' with heq | hv'
                        · obtain ⟨rfl, rfl⟩ := Prod.mk.inj heq
                          rw [hs] at he'
                          simp at he'
                        · exact ihr.2 ⟨v', hv', he'⟩
                    · rw [if_neg hdone, if_neg hex] at h
                      obtain ⟨h1, h2⟩ := Prod.mk.inj (Except.ok.inj h)
                      subst h1
                      subst h2
                      constructor
                      · intro hr
                        obtain ⟨v', hv', he'⟩ := ihr.1 hr
                        exact ⟨v', List.mem_cons_of_mem _ hv', he'⟩
                      · rintro ⟨v', hv', he'⟩
                        rcases List.mem_cons.1 hv' with heq | hv'
                        · obtain ⟨rfl, rfl⟩ := Prod.mk.inj heq
                          rw [hs] at he'
                          injection he' with he'
                          injection he' with he'
                          exact absurd he' hdone
                        · exact ihr.2 ⟨v', hv', he'⟩
          | other =>
              cases hrest : statusSets rest with
              | error e =>
                  simp only [statusSets, hs, hrest] at h
                  exact Except.noConfusion h
              | ok p =>
                  obtain ⟨met', done'⟩ := p
                  simp only [statusSets, hs, hrest] at h
                  obtain ⟨h1, h2⟩ := Prod.mk.inj (Except.ok.inj h)
                  subst h1
                  subst h2
                  have ihr := ih met' done' hrest r
                  constructor
                  · intro hr
                    obtain ⟨v', hv', he'⟩ := ihr.1 hr
                    exact ⟨v', List.mem_cons_of_mem _ hv', he'⟩
                  · rintro ⟨v', hv', he'⟩
                    rcases List.mem_cons.1 hv' with heq | hv'
                    · obtain ⟨rfl, rfl⟩ := Prod.mk.inj heq
                      rw [hs] at he'
                      simp at he'
                    · exact ihr.2 ⟨v', hv', he'⟩

/-- C7: a rule name enters `rules_done` iff its document entry's status is
exactly the string `done` (never for `exempt` or `todo`, so validators are
dispatched only against done rules); every tagged validator error or
documentation-link error stems from a done rule with a registered validator
and a non-empty result; and each such done rule contributes exactly one
tagged error per string its validator returned plus exactly one
documentation-link error — counts that hold per rule independently of what
the other validators return, so one failure suppresses no other. -/
theorem C7_validator_dispatch (vr : String → List String) :
    (∀ (rules : List (String × Yaml)) (met done : List String),
      statusSets rules = .ok (met, done) →
      ∀ r, r ∈ done ↔ ∃ v, (r, v) ∈ rules ∧ entryStatus v = .ok (.str "done"))
    ∧ (∀ (done : List String) (r msg : String),
        Err.validatorError r msg ∈ validatorErrors vr done →
        r ∈ done ∧ VALIDATOR_NAMES.contains r = true ∧ msg ∈ vr r ∧ vr r ≠ [])
    ∧ (∀ (done : List String) (r : String),
        Err.ruleUrl r ∈ validatorErrors vr done →
        r ∈ done ∧ VALIDATOR_NAMES.contains r = true ∧ vr r ≠ [])
    ∧ (∀ (done : List String), done.Nodup → ∀ r ∈ done,
        VALIDATOR_NAMES.contains r = true → vr r ≠ [] →
        (validatorErrors vr done).count (Err.ruleUrl r) = 1
        ∧ ∀ msg, (validatorErrors vr done).count (Err.validatorError r msg)
            = (vr r).count msg) :=
  ⟨statusSets_done_char, mem_validatorErrors_validatorError vr,
    mem_validatorErrors_ruleUrl vr, validatorErrors_counts vr⟩

/-- Witness for C7: the done rule "config-flow" whose validator reports one
error yields exactly one documentation-link error. -/
theorem C7_validator_dispatch_witness :
    (validatorErrors (fun _ => ["boom"]) ["config-flow"]).count
      (Err.ruleUrl "config-flow") = 1 :=
  ((C7_validator_dispatch (fun _ => ["boom"])).2.2.2 ["config-flow"] (by decide)
    "config-flow" (by decide) (by decide) (by decide)).1

/-- C8 counterexample: at the parseable, schema-invalid document
`rules: {config-flow: {status: {}}}` the schema violation DOES short-circuit
the deep validation — the status-classification loop hashes the mapping-valued
status in `status not in {"done", "exempt"}` and raises `TypeError`, so no
validator or tier-completion error (nor even the already-recorded schema
error) reaches an outcome, refuting the claim that a schema violation never
short-circuits. -/
theorem C8_counterexample :
    SCHEMA_valid [("rules", Yaml.map [("config-flow",
      Yaml.map [("status", Yaml.map [])])])] = false
    ∧ validate_iqs_file [] (fun _ => []) ⟨"totally_new_domain", true, "hub", none⟩
        (.file (some [("rules", Yaml.map [("config-flow",
          Yaml.map [("status", Yaml.map [])])])]))
      = .error PyError.typeError := ⟨rfl, rfl⟩

/-- C8 (amended): a parse failure is terminal for the integration's deep
validation — only the invalid-YAML error is recorded and no schema, validator
or tier-completion check runs — while a presence-policy error detected before
parsing still surfaces even when the file is unreadable; a schema violation
does not short-circuit provided the status-classification loop completes
without raising (i.e. `getRules` and `statusSets` succeed: every mapping
entry carries a `status` key and no status value is unhashable): then the
validator and tier-completion errors are still computed and reported right
after the schema error.  On the remaining schema-invalid documents the
function instead raises past the boundary (see C9 and `C8_counterexample`). -/
theorem C8_parse_terminal_schema_accumulates (pf : List String)
    (vr : String → List String) (i : Integration)
    (h1 : i.core = true) (h2 : i.integration_type ≠ "virtual")
    (h3 : i.domain ∉ INTEGRATIONS_WITHOUT_QUALITY_SCALE_FILE)
    (h4 : i.domain ∉ NO_QUALITY_SCALE pf) :
    (validate_iqs_file pf vr i (.file none) = .ok [Err.invalidYaml])
    ∧ (∀ i' : Integration, i'.core = true → i'.integration_type ≠ "virtual" →
        i'.domain ∈ NO_QUALITY_SCALE pf →
        validate_iqs_file pf vr i' (.file none) = .ok [Err.forbiddenWithFile])
    ∧ (∀ (data : List (String × Yaml)) (rules : List (String × Yaml))
        (met done : List String),
        getRules data = .ok rules → statusSets rules = .ok (met, done) →
        SCHEMA_valid data = false →
        validate_iqs_file pf vr i (.file (some data)) =
          .ok (Err.schemaViolation :: (validatorErrors vr done ++
            tierErrors (i.quality_scale.bind QUALITY_SCALE_TIERS) met))) := by
  have hg : INTEGRATIONS_WITHOUT_QUALITY_SCALE_FILE.contains i.domain = false := by
    simpa using h3
  have hn : (NO_QUALITY_SCALE pf).contains i.domain = false := by simpa using h4
  have hv : (i.integration_type == "virtual") = false := by simpa using h2
  refine ⟨?_, ?_, ?_⟩
  · unfold validate_iqs_file
    rw [h1]
    simp only [hv, hn, hg, Bool.not_true, Bool.false_eq_true, if_false, ite_false]
  · intro i' h1' h2' h3'
    have hn' : (NO_QUALITY_SCALE pf).contains i'.domain = true := by simpa using h3'
    have hv' : (i'.integration_type == "virtual") = false := by simpa using h2'
    unfold validate_iqs_file
    rw [h1']
    simp only [hv', hn', Bool.not_true, Bool.false_eq_true, if_false, ite_false,
      if_true, ite_true]
  · intro data rules met done hgr hss hsc
    unfold validate_iqs_file
    rw [h1]
    simp only [hv, hn, hg, hgr, hss, hsc, Bool.not_true, Bool.false_eq_true,
      if_false, ite_false, List.singleton_append, List.cons_append, List.nil_append]

/-- Witness for C8: a schema-invalid document (unknown rule key) still gets
its deep validation run — precisely the schema error results here. -/
theorem C8_parse_terminal_schema_accumulates_witness :
    validate_iqs_file [] (fun _ => []) ⟨"totally_new_domain", true, "hub", none⟩
      (.file (some [("rules", Yaml.map [("made-up-rule", Yaml.str "done")])]))
      = .ok [Err.schemaViolation] := by
  have h := (C8_parse_terminal_schema_accumulates [] (fun _ => [])
    ⟨"totally_new_domain", true, "hub", none⟩ rfl (by decide) (by decide)
    (by decide)).2.2
    [("rules", Yaml.map [("made-up-rule", Yaml.str "done")])]
    [("made-up-rule", Yaml.str "done")] ["made-up-rule"] ["made-up-rule"]
    rfl rfl (by decide)
  exact h.trans (by decide)

/-- C6: the schema accepts exactly three shapes per rule entry — the bare
strings "todo"/"done"; an object with status "todo" or "done" and an optional
string comment; and an object with status "exempt" and a mandatory string
comment — rejecting non-string comments, objects without a status, non-string
non-object values and objects with extra keys; in particular a document
whose entry has status exempt and no comment fails schema validation and the
same document with a string comment added passes. -/
theorem C6_schema_entry_shapes :
    (∀ s, validEntry (.str s) = (s == "todo" || s == "done"))
    ∧ (∀ s, validEntry (.map [("status", .str s)]) = (s == "todo" || s == "done"))
    ∧ (∀ s c, validEntry (.map [("status", .str s), ("comment", .str c)])
        = (s == "todo" || s == "done" || s == "exempt"))
    ∧ (∀ s, validEntry (.map [("status", .str s), ("comment", .other)]) = false)
    ∧ (∀ c, validEntry (.map [("comment", .str c)]) = false)
    ∧ validEntry .other = false
    ∧ (∀ m k v, (k, v) ∈ m → k ≠ "status" → k ≠ "comment" →
        validEntry (.map m) = false)
    ∧ (∀ r, r ∈ RULE_NAMES →
        SCHEMA_valid [("rules", .map [(r, .map [("status", .str "exempt")])])] = false
        ∧ ∀ c, SCHEMA_valid [("rules", .map [(r,
            .map [("status", .str "exempt"), ("comment", .str c)])])] = true) := by
  refine ⟨fun s => rfl, ?_, ?_, ?_, ?_, rfl, ?_, ?_⟩
  · intro s
    simp [validEntry, matchesTodoDoneObj, matchesExemptObj, objKeysOk, ylookup,
      isTodoDone, isStr]
  · intro s c
    simp [validEntry, matchesTodoDoneObj, matchesExemptObj, objKeysOk, ylookup,
      isTodoDone, isStr, Bool.or_assoc]
  · intro s
    simp [validEntry, matchesTodoDoneObj, matchesExemptObj, objKeysOk, ylookup,
      isTodoDone, isStr]
  · intro c
    simp [validEntry, matchesTodoDoneObj, matchesExemptObj, objKeysOk, ylookup,
      isTodoDone, isStr]
  · intro m k v hm hk1 hk2
    have hko : objKeysOk m = false := by
      cases hall : objKeysOk m with
      | false => rfl
      | true =>
          have := List.all_eq_true.1 hall (k, v) hm
          simp at this
          rcases this with h | h
          · exact absurd h hk1
          · exact absurd h hk2
    simp [validEntry, matchesTodoDoneObj, matchesExemptObj, hko]
  · intro r hr
    have hc : RULE_NAMES.contains r = true := by simpa using hr
    constructor
    · simp [SCHEMA_valid, ylookup, validEntry, matchesTodoDoneObj,
        matchesExemptObj, objKeysOk, isTodoDone, isStr, hc]
    · intro c
      simp [SCHEMA_valid, ylookup, validEntry, matchesTodoDoneObj,
        matchesExemptObj, objKeysOk, isTodoDone, isStr, hc, hr]

/-- Witness for C6: the catalog rule "config-flow" declared exempt without a
comment fails document-level schema validation. -/
theorem C6_schema_entry_shapes_witness :
    SCHEMA_valid [("rules", Yaml.map [("config-flow",
      Yaml.map [("status", Yaml.str "exempt")])])] = false :=
  (C6_schema_entry_shapes.2.2.2.2.2.2.2 "config-flow" (by decide)).1
